import Mathlib

/-!
Verification development for the triage scoring and department-routing
engine of the Pragyan hospital backend.

The embedding below is a shallow Lean model of the Python modules
`backend/risk_engine/preprocess.py`, `backend/risk_engine/predictor.py`,
`backend/risk_engine/model_loader.py`, and the vital-coercion layer of
`backend/api/triage_routes.py`.  Python floats are modelled as exact
rationals (no claim below depends on IEEE rounding), Python ints as `Int`,
Python `None`/`int`/`float`/`str` dictionary values as the inductive
`PyVal`, and Python exceptions as `Except String`.
-/

namespace Pragyan

/-- Model of a Python value as stored in the triage submission dict.
`PyVal.none` models both an absent key (`dict.get` returning `None`)
and an explicit `None`. -/
inductive PyVal where
  | none : PyVal
  | int : ℤ → PyVal
  | float : ℚ → PyVal
  | str : String → PyVal


/-- Python truthiness for the values of `PyVal`: `None`, numeric zero and
the empty string are falsy. -/
def pyTruthy : PyVal → Bool
  | .none => false
  | .int n => n != 0
  | .float q => q != 0
  | .str s => s != ""

/-- Python `a or b`. -/
def pyOr (a b : PyVal) : PyVal := if pyTruthy a then a else b

/-- Truncation toward zero, the semantics of Python `int(float)`. -/
def ratTruncate (q : ℚ) : ℤ := if 0 ≤ q then ⌊q⌋ else ⌈q⌉

/-- Parse a decimal-digit string as a natural number. -/
def digitsToNat (cs : List Char) : ℕ :=
  cs.foldl (fun acc c => acc * 10 + (c.toNat - '0'.toNat)) 0

/-- Strip whitespace from both ends only — interior whitespace stays,
as in Python's numeric string parsing (`int(" 12 ")` succeeds but
`int("1 2")` raises). -/
def stripEnds (cs : List Char) : List Char :=
  ((cs.dropWhile Char.isWhitespace).reverse.dropWhile Char.isWhitespace).reverse

/-- Python `int(s)` for a string: optional surrounding (not interior)
whitespace, optional sign, then a nonempty run of decimal digits.
(Underscore digit separators, accepted by CPython, are not modelled —
the model only rejects more strings; no input in this development uses
them.) -/
def parseIntStr (s : String) : Except String ℤ :=
  let cs := stripEnds s.toList
  let (sign, ds) : ℤ × List Char :=
    match cs with
    | '-' :: rest => (-1, rest)
    | '+' :: rest => (1, rest)
    | rest => (1, rest)
  if ds ≠ [] ∧ ds.all Char.isDigit then
    .ok (sign * (digitsToNat ds : ℤ))
  else
    .error "invalid literal for int()"

/-- Python `float(s)` for a string: optional surrounding (not interior)
whitespace, optional sign, digits with an optional single decimal point
(scientific notation, inf/nan and underscore separators are not
modelled — the model only rejects more strings; no input in this
development uses them). -/
def parseFloatStr (s : String) : Except String ℚ :=
  let cs := stripEnds s.toList
  let (sign, ds) : ℚ × List Char :=
    match cs with
    | '-' :: rest => (-1, rest)
    | '+' :: rest => (1, rest)
    | rest => (1, rest)
  match ds.splitOn '.' with
  | [whole] =>
      if whole ≠ [] ∧ whole.all Char.isDigit then
        .ok (sign * (digitsToNat whole : ℚ))
      else .error "could not convert string to float"
  | [whole, frac] =>
      if (whole ≠ [] ∨ frac ≠ []) ∧ whole.all Char.isDigit ∧ frac.all Char.isDigit then
        .ok (sign * ((digitsToNat whole : ℚ) + (digitsToNat frac : ℚ) / (10 ^ frac.length)))
      else .error "could not convert string to float"
  | _ => .error "could not convert string to float"

/-- Python `int(v)` on a submission value. -/
def pyIntCoerce : PyVal → Except String ℤ
  | .none => .error "int() argument cannot be None"
  | .int n => .ok n
  | .float q => .ok (ratTruncate q)
  | .str s => parseIntStr s

/-- Python `float(v)` on a submission value. -/
def pyFloatCoerce : PyVal → Except String ℚ
  | .none => .error "float() argument cannot be None"
  | .int n => .ok (n : ℚ)
  | .float q => .ok q
  | .str s => parseFloatStr s

/-- Python `str(v or '')` as used by `_parse_systolic_bp` and
`_normalize_token` on non-string garbage. -/
def pyStrOfOrEmpty : PyVal → String
  | .none => ""
  | .int n => if n = 0 then "" else toString n
  | .float q => if q = 0 then "" else toString q
  | .str s => s

/-! ### Tokenization (`preprocess.py` lines 70-106) -/

/-- Collapse every whitespace run to a single space, the effect of
`re.sub(r'\s+', ' ', ...)`. -/
def collapseWs : List Char → List Char
  | [] => []
  | [c] => [if c.isWhitespace then ' ' else c]
  | c1 :: c2 :: rest =>
      if c1.isWhitespace ∧ c2.isWhitespace then collapseWs (c2 :: rest)
      else (if c1.isWhitespace then ' ' else c1) :: collapseWs (c2 :: rest)

/-- Model of `_normalize_token`: lowercase, strip surrounding whitespace, collapse
inner whitespace runs. -/
def normalizeToken (s : String) : String :=
  let cs := s.toList.map Char.toLower
  let cs := (cs.dropWhile Char.isWhitespace).reverse.dropWhile Char.isWhitespace |>.reverse
  ⟨collapseWs cs⟩

/-- Split a character list at the separators of `re.split(r'[,;/\n]+', .)`
(empty pieces between adjacent separators are dropped downstream). -/
def splitSeps (cs : List Char) : List (List Char) :=
  match cs with
  | [] => [[]]
  | c :: rest =>
    if c = ',' ∨ c = ';' ∨ c = '/' ∨ c = '\n' then [] :: splitSeps rest
    else
      match splitSeps rest with
      | [] => [[c]]
      | g :: gs => (c :: g) :: gs

/-- Model of `_tokenize`: split each list entry on `,;/` and newlines, normalize,
drop empties. -/
def tokenize (values : List String) : List String :=
  values.flatMap fun item =>
    (((splitSeps item.toList).map fun g => normalizeToken ⟨g⟩).filter fun t => t ≠ "")

/-- A keyword dictionary: canonical term paired with its synonym substrings. -/
abbrev KeywordMap := List (String × List String)

/-- Dictionary `SYMPTOM_KEYWORDS` from `preprocess.py`. -/
def SYMPTOM_KEYWORDS : KeywordMap := [
  ("chest_pain", ["chest pain", "angina", "chest tightness", "chest discomfort"]),
  ("difficulty_breathing", ["difficulty breathing", "shortness of breath", "dyspnea", "breathless", "wheezing"]),
  ("severe_headache", ["severe headache", "migraine", "head pain", "thunderclap headache"]),
  ("abdominal_pain", ["abdominal pain", "stomach pain", "belly pain", "epigastric pain"]),
  ("fever", ["fever", "febrile", "high temperature", "chills"]),
  ("nausea", ["nausea", "vomiting", "queasy", "emesis"]),
  ("dizziness", ["dizziness", "vertigo", "lightheaded"]),
  ("confusion", ["confusion", "disorientation", "altered mental status"]),
  ("loss_of_consciousness", ["loss of consciousness", "unconscious", "syncope", "passed out", "blackout"]),
  ("cardiac_symptom", ["palpitations", "rapid heartbeat", "irregular heartbeat", "tachycardia"]),
  ("neuro_symptom", ["blurred vision", "slurred speech", "weakness", "numbness", "stroke signs", "seizure"]),
  ("general_symptom", ["fatigue", "tiredness", "malaise"])]

/-- Dictionary `CONDITION_KEYWORDS` from `preprocess.py`. -/
def CONDITION_KEYWORDS : KeywordMap := [
  ("diabetes", ["diabetes", "dm", "type 1 diabetes", "type 2 diabetes"]),
  ("hypertension", ["hypertension", "high blood pressure", "htn"]),
  ("heart_disease", ["heart disease", "cad", "coronary artery disease", "mi", "heart failure"]),
  ("asthma", ["asthma", "copd", "chronic bronchitis"]),
  ("cancer", ["cancer", "malignancy", "tumor", "oncology"]),
  ("kidney_disease", ["kidney disease", "ckd", "renal disease", "renal failure"]),
  ("stroke_history", ["stroke", "cva", "tia"])]

/-- Python substring containment `k in tok`. -/
def isSubstr (k tok : String) : Bool := decide (k.toList <:+: tok.toList)

/-- Canonical term rendered with underscores as spaces
(`target.replace('_', ' ')`). -/
def renderName (t : String) : String :=
  ⟨t.toList.map (fun c => if c = '_' then ' ' else c)⟩

/-- One keyword-map entry matches a token when the token equals the
rendered canonical name or contains one of the synonyms. -/
def entryMatches (p : String × List String) (tok : String) : Bool :=
  tok == renderName p.1 || p.2.any (fun k => isSubstr k tok)

/-- The none/not-applicable synonyms discarded by `_map_tokens_to_flags`. -/
def noneTokens : List String :=
  ["none", "nil", "na", "n/a", "no conditions", "no known conditions"]

/-- Tokens that survive the none/n-a filter. -/
def activeTokens (ts : List String) : List String :=
  ts.filter (fun t => !(noneTokens.contains t))

/-- Model of `_map_tokens_to_flags`: returns the per-canonical-term 0/1 flags (in
dictionary order, as the Python dict preserves) and the unmatched-token
indicator.  A flag is set when some non-discarded token matches its entry;
the indicator is set when some non-discarded token matches no entry. -/
def mapTokensToFlags (ts : List String) (kmap : KeywordMap) :
    List (String × ℕ) × ℕ :=
  let active := activeTokens ts
  (kmap.map (fun p => (p.1, if active.any (entryMatches p) then 1 else 0)),
   if active.any (fun tok => kmap.all (fun p => !(entryMatches p tok))) then 1 else 0)

/-- Python `flags.get(key, 0)`. -/
def getFlag (flags : List (String × ℕ)) (key : String) : ℕ :=
  (flags.lookup key).getD 0

/-- The set (as a sublist of the dictionary's keys) of canonical terms
matched by a token list. -/
def matchedKeys (ts : List String) (kmap : KeywordMap) : List String :=
  (((mapTokensToFlags ts kmap).1.filter (fun p => p.2 == 1)).map Prod.fst)

/-! ### Feature builder (`preprocess.py` lines 86-158) -/

/-- The raw triage submission dict, restricted to the keys the feature
builder reads.  A key absent from the dict is `PyVal.none`.  The list
fields hold the raw strings of the JSON arrays. -/
structure Submission where
  age : PyVal := .none
  gender : PyVal := .none
  blood_pressure : PyVal := .none
  systolic_bp : PyVal := .none
  heart_rate : PyVal := .none
  temperature : PyVal := .none
  oxygen_saturation : PyVal := .none
  respiratory_rate : PyVal := .none
  symptoms : List String := []
  previous_conditions : List String := []


/-- Model of `_parse_systolic_bp`: numeric values pass through `int()`; otherwise
the leading 2-3 digit run of `str(value or '')` (after optional leading
whitespace) is taken, defaulting to 120. -/
def parseSystolicBp (v : PyVal) : ℤ :=
  match v with
  | .int n => n
  | .float q => ratTruncate q
  | _ =>
    let cs := (pyStrOfOrEmpty v).toList.dropWhile Char.isWhitespace
    let ds := cs.takeWhile Char.isDigit
    if 2 ≤ ds.length then (digitsToNat (ds.take 3) : ℤ) else 120

/-- The fixed-order numeric feature row (`TRIAGE_FEATURE_COLUMNS`); all
values are floats after `df.astype(float)`, modelled as rationals. -/
structure FeatureRow where
  age : ℚ
  gender_male : ℚ
  gender_female : ℚ
  systolic_bp : ℚ
  heart_rate : ℚ
  temperature : ℚ
  oxygen_saturation : ℚ
  respiratory_rate : ℚ
  chest_pain : ℚ
  difficulty_breathing : ℚ
  severe_headache : ℚ
  abdominal_pain : ℚ
  fever : ℚ
  nausea : ℚ
  dizziness : ℚ
  confusion : ℚ
  loss_of_consciousness : ℚ
  diabetes : ℚ
  hypertension : ℚ
  heart_disease : ℚ
  asthma : ℚ
  cancer : ℚ
  kidney_disease : ℚ
  other_symptom : ℚ
  other_condition : ℚ


/-- The context side channel returned beside the feature row. -/
structure TriageContext where
  symptom_tokens : List String
  condition_tokens : List String
  symptom_flags : List (String × ℕ)
  condition_flags : List (String × ℕ)


/-- Model of `build_triage_feature_payload`.  The numeric coercions `int(... or 0)`
and `float(... or 0)` can raise on non-numeric strings, hence the
`Except`; the coercions run in the order of the Python dict literal. -/
def buildTriageFeaturePayload (d : Submission) :
    Except String (FeatureRow × TriageContext) := do
  let gender := normalizeToken (pyStrOfOrEmpty d.gender)
  let symptomTokens := tokenize d.symptoms
  let conditionTokens := tokenize d.previous_conditions
  let (symptomFlags, otherSymptom) := mapTokensToFlags symptomTokens SYMPTOM_KEYWORDS
  let (conditionFlags, otherCondition) := mapTokensToFlags conditionTokens CONDITION_KEYWORDS
  let age ← pyIntCoerce (pyOr d.age (.int 0))
  let sbp := parseSystolicBp (pyOr d.blood_pressure d.systolic_bp)
  let hr ← pyIntCoerce (pyOr d.heart_rate (.int 0))
  let temp ← pyFloatCoerce (pyOr d.temperature (.int 0))
  let spo2 ← pyIntCoerce (pyOr d.oxygen_saturation (.int 0))
  let rr ← pyIntCoerce (pyOr d.respiratory_rate (.int 0))
  let row : FeatureRow := {
    age := (age : ℚ)
    gender_male := if gender == "male" then 1 else 0
    gender_female := if gender == "female" then 1 else 0
    systolic_bp := (sbp : ℚ)
    heart_rate := (hr : ℚ)
    temperature := temp
    oxygen_saturation := (spo2 : ℚ)
    respiratory_rate := (rr : ℚ)
    chest_pain := (getFlag symptomFlags "chest_pain" : ℚ)
    difficulty_breathing := (getFlag symptomFlags "difficulty_breathing" : ℚ)
    severe_headache := (getFlag symptomFlags "severe_headache" : ℚ)
    abdominal_pain := (getFlag symptomFlags "abdominal_pain" : ℚ)
    fever := (getFlag symptomFlags "fever" : ℚ)
    nausea := (getFlag symptomFlags "nausea" : ℚ)
    dizziness := (getFlag symptomFlags "dizziness" : ℚ)
    confusion := (getFlag symptomFlags "confusion" : ℚ)
    loss_of_consciousness := (getFlag symptomFlags "loss_of_consciousness" : ℚ)
    diabetes := (getFlag conditionFlags "diabetes" : ℚ)
    hypertension := (getFlag conditionFlags "hypertension" : ℚ)
    heart_disease := (getFlag conditionFlags "heart_disease" : ℚ)
    asthma := (getFlag conditionFlags "asthma" : ℚ)
    cancer := (getFlag conditionFlags "cancer" : ℚ)
    kidney_disease := (getFlag conditionFlags "kidney_disease" : ℚ)
    other_symptom := (otherSymptom : ℚ)
    other_condition := (otherCondition : ℚ) }
  return (row, {
    symptom_tokens := symptomTokens
    condition_tokens := conditionTokens
    symptom_flags := symptomFlags
    condition_flags := conditionFlags })

/-- Model of `preprocess_triage_data`: the DataFrame is a single row with the same
values cast to float, so the model is the payload itself. -/
def preprocessTriageData (d : Submission) :
    Except String (FeatureRow × TriageContext) :=
  buildTriageFeaturePayload d

/-! ### Predictor (`predictor.py`) -/

/-- Model of `RiskPredictor._vital_abnormality_score`. -/
def vitalAbnormalityScore (row : FeatureRow) : ℚ :=
  let s : ℚ :=
    (if row.systolic_bp > 160 then 10 else 0) +
    (if row.oxygen_saturation < 90 then 15 else 0) +
    (if row.heart_rate > 120 then 10 else 0) +
    (if row.temperature > 39 then 8 else 0)
  min (s / 43) 1

/-- Model of `RiskPredictor._critical_symptom_score`. -/
def criticalSymptomScore (row : FeatureRow) : ℚ :=
  let s : ℚ :=
    (if row.loss_of_consciousness = 1 then 15 else 0) +
    (if row.chest_pain = 1 then 10 else 0) +
    (if row.difficulty_breathing = 1 then 12 else 0) +
    (if row.confusion = 1 then 8 else 0) +
    (if row.severe_headache = 1 then 6 else 0) +
    (if row.dizziness = 1 then 4 else 0)
  min (s / 45) 1

/-- Model of `RiskPredictor._chronic_condition_score`. -/
def chronicConditionScore (row : FeatureRow) : ℚ :=
  let s : ℚ :=
    (if row.heart_disease = 1 then 10 else 0) +
    (if row.kidney_disease = 1 then 8 else 0) +
    (if row.diabetes = 1 then 6 else 0) +
    (if row.hypertension = 1 then 5 else 0) +
    (if row.cancer = 1 then 7 else 0) +
    (if row.asthma = 1 then 4 else 0)
  min (s / 40) 1

/-- Model of `RiskPredictor._risk_level_from_score`. -/
def riskLevelFromScore (priorityScore : ℚ) : String :=
  if priorityScore ≥ 68 then "High"
  else if priorityScore ≥ 35 then "Medium"
  else "Low"

/-- Model of `RiskPredictor._fallback_department`: the deterministic rule cascade. -/
def fallbackDepartment (row : FeatureRow) (ctx : TriageContext) : String :=
  if row.loss_of_consciousness = 1 ∨
     (row.difficulty_breathing = 1 ∧ row.oxygen_saturation < 90) ∨
     (row.chest_pain = 1 ∧ row.systolic_bp > 180) then "Emergency"
  else if row.chest_pain = 1 ∨ row.heart_disease = 1 ∨ row.hypertension = 1 ∨
          getFlag ctx.symptom_flags "cardiac_symptom" = 1 then "Cardiology"
  else if row.severe_headache = 1 ∨ row.dizziness = 1 ∨ row.confusion = 1 ∨
          getFlag ctx.condition_flags "stroke_history" = 1 ∨
          getFlag ctx.symptom_flags "neuro_symptom" = 1 then "Neurology"
  else if row.difficulty_breathing = 1 ∨ row.oxygen_saturation < 92 ∨ row.asthma = 1 then
    "Pulmonology"
  else if row.abdominal_pain = 1 ∨ row.nausea = 1 ∨ row.fever = 1 then "Gastroenterology"
  else "General Medicine"

/-- A class label of the scikit-learn risk classifier (`classes_` may hold
strings, ints or booleans). -/
inductive PyClass where
  | pstr : String → PyClass
  | pint : ℤ → PyClass
  | pbool : Bool → PyClass

/-- The numeric value of a class label, when it has one (Python treats
`True == 1` and `False == 0`). -/
def pyClassNum : PyClass → Option ℤ
  | .pint n => some n
  | .pbool b => some (if b then 1 else 0)
  | .pstr _ => Option.none

/-- Python `==` on class labels, including the bool/int identification. -/
def pyClassEq (a b : PyClass) : Bool :=
  match a, b with
  | .pstr s, .pstr t => s == t
  | a, b =>
    match pyClassNum a, pyClassNum b with
    | some x, some y => x == y
    | _, _ => false

/-- Python `list.index(v)` preceded by a `v in list` test. -/
def pyIndexOf (cs : List PyClass) (v : PyClass) : Option ℕ :=
  cs.findIdx? (fun c => pyClassEq c v)

/-- The high-risk class index: probe `classes_` for `"High"`, then `1`,
then `True`; default to the last index. -/
def highRiskIdx (cs : List PyClass) : ℤ :=
  match pyIndexOf cs (.pstr "High") with
  | some i => i
  | Option.none =>
    match pyIndexOf cs (.pint 1) with
    | some i => i
    | Option.none =>
      match pyIndexOf cs (.pbool true) with
      | some i => i
      | Option.none => (cs.length : ℤ) - 1

/-- Python list indexing, with negative indices counting from the end. -/
def pyListGet (l : List ℚ) (i : ℤ) : Option ℚ :=
  let j := if i < 0 then (l.length : ℤ) + i else i
  if 0 ≤ j then l.get? j.toNat else Option.none

/-- NumPy `np.max` over a probability vector. -/
def listMax (l : List ℚ) : ℚ := l.foldl max (l.headD 0)

/-- The trained risk classifier as the engine sees it for one call:
its class labels, the probability vector `predict_proba(X)[0]` (where
`Option.none` models the inference call raising), and its
`feature_importances_` (absent when `getattr` returns `None`). -/
structure RiskModel where
  classes : List PyClass
  probs : Option (List ℚ)
  importances : Option (List ℚ)

/-- The trained department classifier for one call. -/
structure DeptModel where
  classes : List String
  probs : Option (List ℚ)

/-- The risk-probability stage of `predict_triage` (lines 186-206):
returns `(risk_proba, risk_confidence, surviving model)`.  Any failure
inside the `try` (a raised `predict_proba`, or an out-of-range class
index) sets the instance's model to `None` and falls back to the
neutral `(0.5, 0.5)`. -/
def computeRisk : Option RiskModel → ℚ × ℚ × Option RiskModel
  | Option.none => (1/2, 1/2, Option.none)
  | some m =>
    match m.probs with
    | Option.none => (1/2, 1/2, Option.none)
    | some probs =>
      match pyListGet probs (highRiskIdx m.classes) with
      | Option.none => (1/2, 1/2, Option.none)
      | some p => (p, listMax probs, some m)

/-- First index of the maximum (`np.argmax`). -/
def argmaxIdx (l : List ℚ) : ℕ := (l.findIdx? (fun x => x == listMax l)).getD 0

/-- The department stage of `predict_triage` (lines 232-244): classifier
prediction when available, rule cascade with confidence 0.55 otherwise;
a raising classifier is disabled on the instance. -/
def computeDept (m? : Option DeptModel) (row : FeatureRow) (ctx : TriageContext) :
    String × ℚ × Option DeptModel :=
  match m? with
  | Option.none => (fallbackDepartment row ctx, 11/20, Option.none)
  | some m =>
    match m.probs with
    | Option.none => (fallbackDepartment row ctx, 11/20, Option.none)
    | some probs =>
      if probs = [] then (fallbackDepartment row ctx, 11/20, Option.none)
      else
        match m.classes.get? (argmaxIdx probs) with
        | Option.none => (fallbackDepartment row ctx, 11/20, Option.none)
        | some dep => (dep, listMax probs, some m)

/-- The stroke-history neurologic acuity boost (lines 211-217). -/
def neuroModifierOf (row : FeatureRow) (ctx : TriageContext) : ℚ :=
  if getFlag ctx.condition_flags "stroke_history" = 1 ∧
     (row.severe_headache = 1 ∨ row.dizziness = 1 ∨ row.confusion = 1 ∨
      getFlag ctx.symptom_flags "neuro_symptom" = 1) then 1/5 else 0

/-- NumPy `np.clip(x, lo, hi)`. -/
def clamp (x lo hi : ℚ) : ℚ := min (max x lo) hi

/-- Python `round(x, 2)` modelled as rounding `100 x` to an integer.
(At an exact half — which no input below produces — CPython rounds the
underlying binary float, which this model need not track.) -/
def round2 (x : ℚ) : ℚ := (round (x * 100) : ℚ) / 100

/-- Python `round(x, 3)`. -/
def round3 (x : ℚ) : ℚ := (round (x * 1000) : ℚ) / 1000

/-- Python `round(x, 4)`. -/
def round4 (x : ℚ) : ℚ := (round (x * 10000) : ℚ) / 10000

/-- The priority-score computation of `predict_triage` (lines 219-229):
blend, probability adjustment, neuro modifier, neuro floor, red-flag
floor, clamp, round. -/
def priorityScoreOf (riskProba : ℚ) (row : FeatureRow) (ctx : TriageContext) : ℚ :=
  let vitalScore := vitalAbnormalityScore row
  let criticalScore := criticalSymptomScore row
  let chronicScore := chronicConditionScore row
  let neuroModifier := neuroModifierOf row ctx
  let p0 := riskProba * 55 + vitalScore * 25 + criticalScore * 15 + chronicScore * 5
  let p1 := if riskProba < 3/10 then p0 - 8 else if riskProba > 3/4 then p0 + 6 else p0
  let p2 := p1 + neuroModifier * 100 * (1/10)
  let p3 := if neuroModifier > 0 then max p2 45 else p2
  let p4 := if row.loss_of_consciousness = 1 ∨
               (row.difficulty_breathing = 1 ∧ row.oxygen_saturation < 90) then max p3 78
            else p3
  round2 (clamp p4 0 100)

/-- The department-override stage (lines 246-260), applied to the
classifier's or the cascade's department. -/
def departmentOverrides (row : FeatureRow) (ctx : TriageContext) (priorityScore : ℚ)
    (dep : String) (conf : ℚ) : String × ℚ :=
  let (dep, conf) :=
    if getFlag ctx.symptom_flags "cardiac_symptom" = 1 ∧ dep = "General Medicine" then
      ("Cardiology", max conf (7/10))
    else (dep, conf)
  let (dep, conf) :=
    if getFlag ctx.condition_flags "stroke_history" = 1 ∧
       (dep = "General Medicine" ∨ dep = "Gastroenterology") then
      ("Neurology", max conf (7/10))
    else (dep, conf)
  if row.loss_of_consciousness = 1 ∨
     (row.difficulty_breathing = 1 ∧ row.oxygen_saturation < 90) ∨
     (row.chest_pain = 1 ∧ row.systolic_bp > 180) ∨
     priorityScore ≥ 85 then
    ("Emergency", max conf (4/5))
  else (dep, conf)

/-- Constant `TRIAGE_FEATURE_COLUMNS`, the fixed column order. -/
def TRIAGE_FEATURE_COLUMNS : List String :=
  ["age", "gender_male", "gender_female", "systolic_bp", "heart_rate", "temperature",
   "oxygen_saturation", "respiratory_rate", "chest_pain", "difficulty_breathing",
   "severe_headache", "abdominal_pain", "fever", "nausea", "dizziness", "confusion",
   "loss_of_consciousness", "diabetes", "hypertension", "heart_disease", "asthma",
   "cancer", "kidney_disease", "other_symptom", "other_condition"]

/-- Lookup `row[col]` for the single-row DataFrame dict. -/
def colValue (row : FeatureRow) (col : String) : ℚ :=
  if col == "age" then row.age
  else if col == "gender_male" then row.gender_male
  else if col == "gender_female" then row.gender_female
  else if col == "systolic_bp" then row.systolic_bp
  else if col == "heart_rate" then row.heart_rate
  else if col == "temperature" then row.temperature
  else if col == "oxygen_saturation" then row.oxygen_saturation
  else if col == "respiratory_rate" then row.respiratory_rate
  else if col == "chest_pain" then row.chest_pain
  else if col == "difficulty_breathing" then row.difficulty_breathing
  else if col == "severe_headache" then row.severe_headache
  else if col == "abdominal_pain" then row.abdominal_pain
  else if col == "fever" then row.fever
  else if col == "nausea" then row.nausea
  else if col == "dizziness" then row.dizziness
  else if col == "confusion" then row.confusion
  else if col == "loss_of_consciousness" then row.loss_of_consciousness
  else if col == "diabetes" then row.diabetes
  else if col == "hypertension" then row.hypertension
  else if col == "heart_disease" then row.heart_disease
  else if col == "asthma" then row.asthma
  else if col == "cancer" then row.cancer
  else if col == "kidney_disease" then row.kidney_disease
  else if col == "other_symptom" then row.other_symptom
  else if col == "other_condition" then row.other_condition
  else 0

/-- Model of `_numeric_weight` inside `_feature_rankings`. -/
def numericWeight (col : String) (value : ℚ) : ℚ :=
  if col == "systolic_bp" then max ((value - 120) / 60) 0
  else if col == "heart_rate" then max ((value - 80) / 60) 0
  else if col == "temperature" then max ((value - 37) / 3) 0
  else if col == "oxygen_saturation" then max ((95 - value) / 15) 0
  else if col == "respiratory_rate" then max ((value - 18) / 18) 0
  else if col == "age" then max ((value - 40) / 50) 0
  else max value 0

/-- Model of `RiskPredictor._feature_rankings`: importance-weighted positive
contributions, sorted descending (Python's stable sort), top 4.  The
model assumes, as scikit-learn guarantees, one importance per feature
column (an absent entry contributes 0). -/
def featureRankings (m : RiskModel) (row : FeatureRow) : List (String × ℚ × ℚ) :=
  match m.importances with
  | Option.none => []
  | some imps =>
    let contributions :=
      (TRIAGE_FEATURE_COLUMNS.enum.filterMap fun p =>
        let val := colValue row p.2
        let score := (imps.getD p.1 0) * numericWeight p.2 val
        if score > 0 then some (p.2, score, val) else Option.none)
    ((contributions.mergeSort (fun a b => b.2.1 ≤ a.2.1)).take 4)

/-- Model of `RiskPredictor._humanize_feature`.  The embedded numeric rendering
uses `toString` of the truncated value; the claims never inspect the
rendered text. -/
def humanizeFeature (col : String) (value : ℚ) : String :=
  if col == "oxygen_saturation" then "Oxygen Saturation (" ++ toString (ratTruncate value) ++ "%)"
  else if col == "systolic_bp" then "Systolic Blood Pressure (" ++ toString (ratTruncate value) ++ " mmHg)"
  else if col == "heart_rate" then "Heart Rate (" ++ toString (ratTruncate value) ++ " bpm)"
  else if col == "temperature" then "Temperature (" ++ toString value ++ " C)"
  else if col == "difficulty_breathing" then "Difficulty Breathing"
  else if col == "chest_pain" then "Chest Pain"
  else if col == "confusion" then "Confusion"
  else if col == "loss_of_consciousness" then "Loss of Consciousness"
  else if col == "heart_disease" then "Heart Disease History"
  else if col == "hypertension" then "Hypertension History"
  else if col == "asthma" then "Asthma History"
  else if col == "severe_headache" then "Severe Headache"
  else if col == "abdominal_pain" then "Abdominal Pain"
  else if col == "dizziness" then "Dizziness"
  else if col == "fever" then "Fever"
  else if col == "nausea" then "Nausea"
  else if col == "age" then "Age (" ++ toString (ratTruncate value) ++ ")"
  else (renderName col).capitalize

/-- Python `dict.fromkeys` deduplication preserving first-seen order. -/
def dedupeKeepOrder (l : List String) : List String :=
  l.foldl (fun acc x => if acc.contains x then acc else acc ++ [x]) []

/-- Model of `RiskPredictor._recommended_tests_for_department`. -/
def recommendedTestsForDepartment (department : String) (row : FeatureRow) : List String :=
  let tests := ["CBC", "Basic Metabolic Panel"]
  let tests := tests ++
    (if department == "Cardiology" then ["ECG", "Troponin", "Echocardiogram"]
     else if department == "Neurology" then ["Neurological Exam", "CT Brain", "MRI Brain"]
     else if department == "Pulmonology" then ["Chest X-ray", "ABG", "Spirometry"]
     else if department == "Gastroenterology" then ["LFT", "Abdominal Ultrasound", "Serum Lipase"]
     else if department == "Emergency" then
       ["ECG", "Chest X-ray", "Emergency Panel", "Point-of-care Ultrasound"]
     else [])
  let tests := tests ++ (if row.oxygen_saturation < 90 then ["Supplemental Oxygen Protocol"] else [])
  let tests := tests ++
    (if row.loss_of_consciousness = 1 then ["Emergency Airway and Neuro Monitoring"] else [])
  dedupeKeepOrder tests

/-- The result dict returned by `predict_triage`, with both the modern
keys and the backward-compatible mirror keys. -/
structure TriageResult where
  risk_level : String
  priority_score : ℚ
  recommended_department : String
  confidence : ℚ
  model_probability_high_risk : ℚ
  vital_abnormality_score : ℚ
  critical_symptom_score : ℚ
  chronic_condition_score : ℚ
  top_contributing_features : List String
  explainability_reasoning : String
  predicted_department : String
  priority_level : String
  risk_score : ℚ
  reasoning : List String
  recommended_tests : List String

/-- The reasoning sentence (lines 274-280); numeric interpolations are
rendered with `toString`, which the claims never inspect. -/
def reasoningText (riskLevel : String) (priorityScore riskProba : ℚ)
    (neuroModifier : ℚ) : String :=
  let base := "Patient risk is " ++ riskLevel ++ " with a priority score of " ++
    toString priorityScore ++ ". The score combines Random Forest high-risk probability (" ++
    toString (round2 riskProba) ++ "), vital abnormality burden, and critical symptom severity."
  if neuroModifier > 0 then
    base ++ " Neurologic risk modifier was applied due to stroke history with active neuro symptoms."
  else base

/-- Model of `RiskPredictor.predict_triage`, for a predictor holding the given
(possibly absent) models.  Returns the result together with the models
surviving on the instance (a model that raised is set to `None`). -/
def predictTriage (risk? : Option RiskModel) (dept? : Option DeptModel)
    (d : Submission) :
    Except String (TriageResult × Option RiskModel × Option DeptModel) := do
  let (row, ctx) ← preprocessTriageData d
  let (riskProba, riskConfidence, riskSurvives) := computeRisk risk?
  let vitalScore := vitalAbnormalityScore row
  let criticalScore := criticalSymptomScore row
  let chronicScore := chronicConditionScore row
  let neuroModifier := neuroModifierOf row ctx
  let priorityScore := priorityScoreOf riskProba row ctx
  let riskLevel := riskLevelFromScore priorityScore
  let (depRaw, depConfRaw, deptSurvives) := computeDept dept? row ctx
  let (recommendedDepartment, depConfidence) :=
    departmentOverrides row ctx priorityScore depRaw depConfRaw
  let confidence := round3 (clamp ((riskConfidence + depConfidence) / 2) 0 1)
  let ranked :=
    match riskSurvives with
    | some m => featureRankings m row
    | Option.none => []
  let topFeatures := ranked.map (fun t => humanizeFeature t.1 t.2.2)
  let topFeatures :=
    if topFeatures = [] then
      [humanizeFeature "oxygen_saturation" row.oxygen_saturation,
       humanizeFeature "systolic_bp" row.systolic_bp,
       humanizeFeature "chest_pain" 1,
       humanizeFeature "difficulty_breathing" 1]
    else topFeatures
  let reasoning := reasoningText riskLevel priorityScore riskProba neuroModifier
  let recommendedTests := recommendedTestsForDepartment recommendedDepartment row
  return ({
    risk_level := riskLevel
    priority_score := priorityScore
    recommended_department := recommendedDepartment
    confidence := confidence
    model_probability_high_risk := round4 riskProba
    vital_abnormality_score := round4 vitalScore
    critical_symptom_score := round4 criticalScore
    chronic_condition_score := round4 chronicScore
    top_contributing_features := topFeatures
    explainability_reasoning := reasoning
    predicted_department := recommendedDepartment
    priority_level := riskLevel
    risk_score := priorityScore
    reasoning := [reasoning]
    recommended_tests := recommendedTests }, riskSurvives, deptSurvives)

/-! ### Route-layer vital coercion (`triage_routes.py` lines 202-221, 416-421)

The triage-creation route normalizes the submitted vitals before the
engine runs; this is where the clinically neutral defaults 16 / 98 / 37.0
live. -/

/-- Model of `_coerce_int(value, default)`: `None` and blank strings give the
default, otherwise `int(float(value))`, with any exception giving the
default. -/
def coerceIntRoute (v : PyVal) (default : ℤ) : ℤ :=
  match v with
  | .none => default
  | .int n => n
  | .float q => ratTruncate q
  | .str s =>
    if (s.toList.filter (fun c => !c.isWhitespace)) = [] then default
    else
      match parseFloatStr s with
      | .ok q => ratTruncate q
      | .error _ => default

/-- Model of `_coerce_float(value, default)`. -/
def coerceFloatRoute (v : PyVal) (default : ℚ) : ℚ :=
  match v with
  | .none => default
  | .int n => (n : ℚ)
  | .float q => q
  | .str s =>
    if (s.toList.filter (fun c => !c.isWhitespace)) = [] then default
    else
      match parseFloatStr s with
      | .ok q => q
      | .error _ => default

/-- The vital-defaulting block of the triage-creation route (lines
416-421): age and heart_rate default to 0, respiratory_rate to 16,
oxygen_saturation to 98, temperature to 37.0.  (The subsequent EHR
vital-merge block, lines 423-440, only applies when extracted EHR vitals
are present and is not modelled.) -/
def routeNormalizeVitals (d : Submission) : Submission :=
  { d with
    age := .int (coerceIntRoute d.age 0)
    heart_rate := .int (coerceIntRoute d.heart_rate 0)
    respiratory_rate := .int (coerceIntRoute d.respiratory_rate 16)
    oxygen_saturation := .int (coerceIntRoute d.oxygen_saturation 98)
    temperature := .float (coerceFloatRoute d.temperature 37) }

/-! ### Process-level model lifecycle (`model_loader.py`, `predictor.py`
constructor, `triage_routes.py` line 235)

`ModelLoader` caches loaded model objects in a class variable; failures
inside `predict_triage` only clear the *instance* attribute
(`self.risk_model = None`) and never touch the loader cache.  Every call
path in the repository constructs a fresh `RiskPredictor` (the triage
routes build one per request; the functional `predict_risk` wrapper
builds one per call), so each call re-reads the loader cache. -/

/-- The per-process loader cache (`ModelLoader._models`). -/
structure ProcessState where
  cachedRisk : Option RiskModel
  cachedDept : Option DeptModel

/-- Model of `RiskPredictor.__init__`: pull both models from the loader cache
(load failures caught, giving `None`). -/
def newPredictor (ps : ProcessState) : Option RiskModel × Option DeptModel :=
  (ps.cachedRisk, ps.cachedDept)

/-- Whether a `predict_triage` call on a predictor holding `risk?` enters
the risk-model inference branch (the `try` block guarded by
`self.risk_model is not None`). -/
def attemptsRiskInference (risk? : Option RiskModel) : Bool :=
  risk?.isSome

/-- One triage request as served by `predict_triage_assessment`: a fresh
predictor from the loader cache, then `predict_triage`.  The loader
cache is returned unchanged — nothing in the engine writes to it. -/
def serveTriageRequest (ps : ProcessState) (d : Submission) :
    Except String (TriageResult × Option RiskModel × Option DeptModel) × ProcessState :=
  let (risk?, dept?) := newPredictor ps
  (predictTriage risk? dept? d, ps)

/-! ### Spec-side definitions (written from the specification's wording,
for comparison against the code-side definitions above) -/

/-- The spec's priority formula (§4.5): blend
`risk_probability*55 + vital*25 + critical*15 + chronic*5`, then the six
adjustments in order — subtract 8 if probability < 0.30 else add 6 if
probability > 0.75; add `neuro_modifier*10`; floor at 45 when the neuro
modifier fired; floor at 78 on the red-flag combination; clamp to
[0,100]; round to 2 decimals. -/
def specAdjustedPriority (rp vital critical chronic neuro : ℚ) (redFlag : Prop)
    [Decidable redFlag] : ℚ :=
  let blend := rp * 55 + vital * 25 + critical * 15 + chronic * 5
  let a1 := if rp < 3/10 then blend - 8 else if rp > 3/4 then blend + 6 else blend
  let a2 := a1 + neuro * 10
  let a3 := if neuro > 0 then max a2 45 else a2
  let a4 := if redFlag then max a3 78 else a3
  round2 (clamp a4 0 100)

/-- The spec's risk-level thresholds, re-evaluated on the final score:
at least 68 is High, at least 35 is Medium, below that Low. -/
def specRiskLevel (s : ℚ) : String :=
  if s ≥ 68 then "High" else if s ≥ 35 then "Medium" else "Low"

/-- The spec's additive vital points (cap 43). -/
def specVitalPoints (row : FeatureRow) : ℚ :=
  (if row.systolic_bp > 160 then 10 else 0) +
  (if row.oxygen_saturation < 90 then 15 else 0) +
  (if row.heart_rate > 120 then 10 else 0) +
  (if row.temperature > 39 then 8 else 0)

/-- The spec's additive critical-symptom points (cap 45). -/
def specCriticalPoints (row : FeatureRow) : ℚ :=
  (if row.loss_of_consciousness = 1 then 15 else 0) +
  (if row.chest_pain = 1 then 10 else 0) +
  (if row.difficulty_breathing = 1 then 12 else 0) +
  (if row.confusion = 1 then 8 else 0) +
  (if row.severe_headache = 1 then 6 else 0) +
  (if row.dizziness = 1 then 4 else 0)

/-- The spec's additive chronic-condition points (cap 40). -/
def specChronicPoints (row : FeatureRow) : ℚ :=
  (if row.heart_disease = 1 then 10 else 0) +
  (if row.kidney_disease = 1 then 8 else 0) +
  (if row.diabetes = 1 then 6 else 0) +
  (if row.hypertension = 1 then 5 else 0) +
  (if row.cancer = 1 then 7 else 0) +
  (if row.asthma = 1 then 4 else 0)

/-! ### Well-formedness of numeric submission fields -/

/-- A submission value whose `int(... or 0)` coercion is safe: absent,
numeric, empty string, or an int-parsable string. -/
def intFieldWellFormed : PyVal → Prop
  | .str s => s = "" ∨ (parseIntStr s).isOk = true
  | _ => True

/-- A submission value whose `float(... or 0)` coercion is safe. -/
def floatFieldWellFormed : PyVal → Prop
  | .str s => s = "" ∨ (parseFloatStr s).isOk = true
  | _ => True

/-- A token that matches no entry of the keyword dictionary. -/
def tokenUnmatched (kmap : KeywordMap) (tok : String) : Prop :=
  ∀ p ∈ kmap, entryMatches p tok = false

/-! ### Concrete inputs used by counterexamples and witnesses -/

/-- The submission with every field absent. -/
def emptySubmission : Submission := {}

/-- A submission carrying a non-numeric string in the heart-rate vital. -/
def badVitalSubmission : Submission := { heart_rate := .str "abc" }

/-- A submission whose numeric fields are all parsable strings. -/
def stringVitalSubmission : Submission :=
  { age := .str "45", heart_rate := .str "88", temperature := .str "37.5",
    oxygen_saturation := .str "97", respiratory_rate := .str "18",
    blood_pressure := .str "130/85", symptoms := ["fever"] }

/-- The §8 scenario input: systolic 190, chest pain, no loss of
consciousness, oxygen saturation 95. -/
def c6Submission : Submission :=
  { systolic_bp := .int 190, oxygen_saturation := .int 95, symptoms := ["chest pain"] }

/-- A submission reporting loss of consciousness. -/
def locSubmission : Submission := { symptoms := ["unconscious"] }

/-- A feature row with every critical-symptom flag set (and otherwise
zero). -/
def allCriticalRow : FeatureRow :=
  { age := 0, gender_male := 0, gender_female := 0, systolic_bp := 0, heart_rate := 0,
    temperature := 0, oxygen_saturation := 0, respiratory_rate := 0,
    chest_pain := 1, difficulty_breathing := 1, severe_headache := 1,
    abdominal_pain := 0, fever := 0, nausea := 0, dizziness := 1, confusion := 1,
    loss_of_consciousness := 1, diabetes := 0, hypertension := 0, heart_disease := 0,
    asthma := 0, cancer := 0, kidney_disease := 0, other_symptom := 0, other_condition := 0 }

/-- A feature row with chest pain as the only critical symptom. -/
def chestPainOnlyRow : FeatureRow :=
  { allCriticalRow with
    difficulty_breathing := 0
    severe_headache := 0
    dizziness := 0
    confusion := 0
    loss_of_consciousness := 0 }

/-- A cached risk model whose `predict_proba` raises on every call. -/
def throwingRiskModel : RiskModel :=
  { classes := [.pstr "Low", .pstr "High"], probs := Option.none,
    importances := Option.none }

/-- A healthy risk model: class order Low/High, probability vector 0.3/0.7. -/
def workingRiskModel : RiskModel :=
  { classes := [.pstr "Low", .pstr "High"], probs := some [3/10, 7/10],
    importances := Option.none }

/-- A process whose loader cache holds the always-throwing risk model. -/
def throwingProcess : ProcessState :=
  { cachedRisk := some throwingRiskModel, cachedDept := Option.none }

/-! ## Theorems -/

/-- Shared extraction lemma: the scalar fields of a successful
`predictTriage` call in terms of the stage functions. -/
theorem predictTriage_fields (risk? : Option RiskModel) (dept? : Option DeptModel)
    (d : Submission) (row : FeatureRow) (ctx : TriageContext) (res : TriageResult)
    (m1 : Option RiskModel) (m2 : Option DeptModel)
    (hpre : preprocessTriageData d = .ok (row, ctx))
    (hres : predictTriage risk? dept? d = .ok (res, m1, m2)) :
    res.priority_score = priorityScoreOf (computeRisk risk?).1 row ctx ∧
    res.risk_level = riskLevelFromScore (priorityScoreOf (computeRisk risk?).1 row ctx) ∧
    res.recommended_department =
      (departmentOverrides row ctx (priorityScoreOf (computeRisk risk?).1 row ctx)
        (computeDept dept? row ctx).1 (computeDept dept? row ctx).2.1).1 ∧
    res.confidence =
      round3 (clamp (((computeRisk risk?).2.1 +
        (departmentOverrides row ctx (priorityScoreOf (computeRisk risk?).1 row ctx)
          (computeDept dept? row ctx).1 (computeDept dept? row ctx).2.1).2) / 2) 0 1) := by
  unfold predictTriage at hres
  rw [hpre] at hres
  simp only [Except.bind, pure, Except.pure, Except.ok.injEq, Prod.mk.injEq] at hres
  rcases hres with ⟨rfl, rfl, rfl⟩
  exact ⟨rfl, rfl, rfl, rfl⟩

/-- Rounding to 2 decimals preserves an integer lower bound. -/
theorem le_round2 {x : ℚ} {n : ℤ} (hx : (n : ℚ) ≤ x) : (n : ℚ) ≤ round2 x := by
  have h1 : (100 * n : ℤ) ≤ round (x * 100) := by
    rw [round_eq]
    refine Int.le_floor.mpr ?_
    push_cast
    linarith
  rw [round2]
  have h2 : ((100 * n : ℤ) : ℚ) ≤ (round (x * 100) : ℚ) := by exact_mod_cast h1
  push_cast at h2
  linarith

/-- C3: whenever the built feature row has `loss_of_consciousness = 1`,
the triage result has `priority_score ≥ 78` and department "Emergency",
whatever the other inputs and whatever either classifier returns. -/
theorem c3_loss_of_consciousness_forces_emergency (risk? : Option RiskModel)
    (dept? : Option DeptModel) (d : Submission) (row : FeatureRow) (ctx : TriageContext)
    (res : TriageResult) (m1 : Option RiskModel) (m2 : Option DeptModel)
    (hpre : preprocessTriageData d = .ok (row, ctx))
    (hloc : row.loss_of_consciousness = 1)
    (hres : predictTriage risk? dept? d = .ok (res, m1, m2)) :
    78 ≤ res.priority_score ∧ res.recommended_department = "Emergency" := by
  obtain ⟨hscore, _, hdep, _⟩ :=
    predictTriage_fields risk? dept? d row ctx res m1 m2 hpre hres
  constructor
  · rw [hscore]
    have key : ∀ y : ℚ, (78 : ℚ) ≤ round2 (clamp (max y 78) 0 100) := by
      intro y
      have h1 : (78 : ℚ) ≤ clamp (max y 78) 0 100 :=
        le_min (le_max_of_le_left (le_max_right y 78)) (by norm_num)
      exact_mod_cast le_round2 (n := 78) h1
    simp only [priorityScoreOf]
    rw [if_pos (Or.inl hloc)]
    exact key _
  · rw [hdep]
    unfold departmentOverrides
    simp [hloc]

/-- C10: every result of `predict_triage` carries the legacy mirror keys
equal to their modern counterparts: `predicted_department` equals
`recommended_department`, `priority_level` equals `risk_level`,
`risk_score` equals `priority_score`, and `reasoning` is the one-element
list holding the explainability reasoning string. -/
theorem c10_legacy_mirror_keys (risk? : Option RiskModel) (dept? : Option DeptModel)
    (d : Submission) (res : TriageResult) (m1 : Option RiskModel) (m2 : Option DeptModel)
    (hres : predictTriage risk? dept? d = .ok (res, m1, m2)) :
    res.predicted_department = res.recommended_department ∧
    res.priority_level = res.risk_level ∧
    res.risk_score = res.priority_score ∧
    res.reasoning = [res.explainability_reasoning] := by
  unfold predictTriage at hres
  cases hpre : preprocessTriageData d with
  | error e =>
    rw [hpre] at hres
    simp [Except.bind] at hres
  | ok pc =>
    obtain ⟨row, ctx⟩ := pc
    rw [hpre] at hres
    simp only [Except.bind, pure, Except.pure, Except.ok.injEq, Prod.mk.injEq] at hres
    rcases hres with ⟨rfl, rfl, rfl⟩
    exact ⟨rfl, rfl, rfl, rfl⟩

/-- Witness for C10 at the empty submission with no models loaded. -/
theorem c10_legacy_mirror_keys_witness :
    ∃ res m1 m2, predictTriage Option.none Option.none emptySubmission = .ok (res, m1, m2) ∧
      res.predicted_department = res.recommended_department ∧
      res.priority_level = res.risk_level ∧
      res.risk_score = res.priority_score ∧
      res.reasoning = [res.explainability_reasoning] := by
  have hok : (predictTriage Option.none Option.none emptySubmission).isOk = true := by rfl
  cases h : predictTriage Option.none Option.none emptySubmission with
  | error e => rw [h] at hok; simp [Except.isOk, Except.toBool] at hok
  | ok t =>
    obtain ⟨res, m1, m2⟩ := t
    exact ⟨res, m1, m2, rfl, c10_legacy_mirror_keys _ _ _ _ _ _ h⟩

/-- Witness for C3: the submission reporting "unconscious", with no
models loaded, lands in Emergency with priority at least 78. -/
theorem c3_loss_of_consciousness_forces_emergency_witness :
    ∃ row ctx res m1 m2,
      preprocessTriageData locSubmission = .ok (row, ctx) ∧
      row.loss_of_consciousness = 1 ∧
      predictTriage Option.none Option.none locSubmission = .ok (res, m1, m2) ∧
      78 ≤ res.priority_score ∧ res.recommended_department = "Emergency" := by
  have hok1 : (preprocessTriageData locSubmission).isOk = true := by rfl
  have hfield : (preprocessTriageData locSubmission).map
      (fun p => decide (p.1.loss_of_consciousness = 1)) = .ok true := by rfl
  cases h1 : preprocessTriageData locSubmission with
  | error e => rw [h1] at hok1; simp [Except.isOk, Except.toBool] at hok1
  | ok pc =>
    obtain ⟨row, ctx⟩ := pc
    rw [h1] at hfield
    simp only [Except.map, Except.ok.injEq, decide_eq_true_eq] at hfield
    have hok2 : (predictTriage Option.none Option.none locSubmission).isOk = true := by rfl
    cases h2 : predictTriage Option.none Option.none locSubmission with
    | error e => rw [h2] at hok2; simp [Except.isOk, Except.toBool] at hok2
    | ok t =>
      obtain ⟨res, m1, m2⟩ := t
      exact ⟨row, ctx, res, m1, m2, rfl, hfield, rfl,
        c3_loss_of_consciousness_forces_emergency _ _ _ _ _ _ _ _ h1 hfield h2⟩

/-- The code's priority computation coincides with the spec's formula
and adjustment order. -/
theorem priorityScoreOf_eq_spec (rp : ℚ) (row : FeatureRow) (ctx : TriageContext) :
    priorityScoreOf rp row ctx =
      specAdjustedPriority rp (vitalAbnormalityScore row) (criticalSymptomScore row)
        (chronicConditionScore row) (neuroModifierOf row ctx)
        (row.loss_of_consciousness = 1 ∨
          (row.difficulty_breathing = 1 ∧ row.oxygen_saturation < 90)) := by
  have hq : (neuroModifierOf row ctx) * 100 * (1/10) = (neuroModifierOf row ctx) * 10 := by
    ring
  simp only [priorityScoreOf, specAdjustedPriority]
  rw [hq]

/-- C4: the returned priority score is exactly the documented blend
`rp*55 + vital*25 + critical*15 + chronic*5` with the six adjustments in
the documented order (probability adjustment, neuro bonus, neuro floor
45, red-flag floor 78, clamp to [0,100], round to 2 decimals), and the
risk level is read off the final score with thresholds 68/35. -/
theorem c4_priority_formula (risk? : Option RiskModel) (dept? : Option DeptModel)
    (d : Submission) (row : FeatureRow) (ctx : TriageContext)
    (res : TriageResult) (m1 : Option RiskModel) (m2 : Option DeptModel)
    (hpre : preprocessTriageData d = .ok (row, ctx))
    (hres : predictTriage risk? dept? d = .ok (res, m1, m2)) :
    res.priority_score =
      specAdjustedPriority (computeRisk risk?).1 (vitalAbnormalityScore row)
        (criticalSymptomScore row) (chronicConditionScore row) (neuroModifierOf row ctx)
        (row.loss_of_consciousness = 1 ∨
          (row.difficulty_breathing = 1 ∧ row.oxygen_saturation < 90)) ∧
    res.risk_level = specRiskLevel res.priority_score := by
  obtain ⟨hscore, hlevel, _, _⟩ :=
    predictTriage_fields risk? dept? d row ctx res m1 m2 hpre hres
  refine ⟨?_, ?_⟩
  · rw [hscore, priorityScoreOf_eq_spec]
  · rw [hlevel, hscore]
    rfl

/-- Witness for C4 at the §8 scenario submission with no models. -/
theorem c4_priority_formula_witness :
    ∃ row ctx res m1 m2,
      preprocessTriageData c6Submission = .ok (row, ctx) ∧
      predictTriage Option.none Option.none c6Submission = .ok (res, m1, m2) ∧
      res.priority_score =
        specAdjustedPriority (computeRisk Option.none).1 (vitalAbnormalityScore row)
          (criticalSymptomScore row) (chronicConditionScore row) (neuroModifierOf row ctx)
          (row.loss_of_consciousness = 1 ∨
            (row.difficulty_breathing = 1 ∧ row.oxygen_saturation < 90)) ∧
      res.risk_level = specRiskLevel res.priority_score := by
  have hok1 : (preprocessTriageData c6Submission).isOk = true := by rfl
  cases h1 : preprocessTriageData c6Submission with
  | error e => rw [h1] at hok1; simp [Except.isOk, Except.toBool] at hok1
  | ok pc =>
    obtain ⟨row, ctx⟩ := pc
    have hok2 : (predictTriage Option.none Option.none c6Submission).isOk = true := by rfl
    cases h2 : predictTriage Option.none Option.none c6Submission with
    | error e => rw [h2] at hok2; simp [Except.isOk, Except.toBool] at hok2
    | ok t =>
      obtain ⟨res, m1, m2⟩ := t
      exact ⟨row, ctx, res, m1, m2, rfl, rfl,
        c4_priority_formula _ _ _ _ _ _ _ _ h1 h2⟩

/-- Counterexample for C5: with every critical-symptom flag set the
additive total is 55, and the returned critical_symptom_score is the
clipped value 1, not 55/45 — the claimed "points divided by cap" fails
exactly when every contributing flag is set at once. -/
theorem c5_counterexample :
    specCriticalPoints allCriticalRow = 55 ∧
    criticalSymptomScore allCriticalRow = 1 ∧
    criticalSymptomScore allCriticalRow ≠ 55 / 45 := by
  refine ⟨?_, ?_, ?_⟩ <;>
    norm_num [specCriticalPoints, criticalSymptomScore, allCriticalRow]

/-- C5 (amended): each sub-score is `min(points/cap, 1)` and lies in
[0,1]; for the vital score (cap 43, maximal total 43) and the chronic
score (cap 40, maximal total 40) the clip never binds, so the score is
exactly points/cap, while the critical score equals points/45 only when
the total is at most 45 (the maximal total being 55). -/
theorem c5_subscores_amended (row : FeatureRow) :
    vitalAbnormalityScore row = specVitalPoints row / 43 ∧
    chronicConditionScore row = specChronicPoints row / 40 ∧
    criticalSymptomScore row = min (specCriticalPoints row / 45) 1 ∧
    (specCriticalPoints row ≤ 45 → criticalSymptomScore row = specCriticalPoints row / 45) ∧
    (0 ≤ vitalAbnormalityScore row ∧ vitalAbnormalityScore row ≤ 1) ∧
    (0 ≤ criticalSymptomScore row ∧ criticalSymptomScore row ≤ 1) ∧
    (0 ≤ chronicConditionScore row ∧ chronicConditionScore row ≤ 1) := by
  have hv : 0 ≤ specVitalPoints row ∧ specVitalPoints row ≤ 43 := by
    unfold specVitalPoints; split_ifs <;> norm_num
  have hc : 0 ≤ specCriticalPoints row := by
    unfold specCriticalPoints; split_ifs <;> norm_num
  have hch : 0 ≤ specChronicPoints row ∧ specChronicPoints row ≤ 40 := by
    unfold specChronicPoints; split_ifs <;> norm_num
  have ev : vitalAbnormalityScore row = min (specVitalPoints row / 43) 1 := rfl
  have ec : criticalSymptomScore row = min (specCriticalPoints row / 45) 1 := rfl
  have ech : chronicConditionScore row = min (specChronicPoints row / 40) 1 := rfl
  have hv1 : specVitalPoints row / 43 ≤ 1 := by
    rw [div_le_one (by norm_num : (0:ℚ) < 43)]; exact hv.2
  have hch1 : specChronicPoints row / 40 ≤ 1 := by
    rw [div_le_one (by norm_num : (0:ℚ) < 40)]; exact hch.2
  refine ⟨?_, ?_, ec, ?_, ?_, ?_, ?_⟩
  · rw [ev, min_eq_left hv1]
  · rw [ech, min_eq_left hch1]
  · intro h45
    rw [ec, min_eq_left (by rw [div_le_one (by norm_num : (0:ℚ) < 45)]; exact h45)]
  · rw [ev, min_eq_left hv1]
    constructor
    · exact div_nonneg hv.1 (by norm_num)
    · exact hv1
  · rw [ec]
    exact ⟨le_min (div_nonneg hc (by norm_num)) (by norm_num), min_le_right _ _⟩
  · rw [ech, min_eq_left hch1]
    constructor
    · exact div_nonneg hch.1 (by norm_num)
    · exact hch1

/-- Witness for C5 (amended) at the chest-pain-only row, whose critical
total 10 is within the cap. -/
theorem c5_subscores_amended_witness :
    criticalSymptomScore chestPainOnlyRow = specCriticalPoints chestPainOnlyRow / 45 :=
  (c5_subscores_amended chestPainOnlyRow).2.2.2.1
    (by norm_num [specCriticalPoints, chestPainOnlyRow, allCriticalRow])

/-- Counterexample for C6: on the §8 scenario input the rule cascade
itself already returns "Emergency" — its first rule contains the
`chest_pain AND systolic_bp > 180` disjunct — so the fallback is never
"Cardiology". -/
theorem c6_counterexample :
    (preprocessTriageData c6Submission).map (fun p => fallbackDepartment p.1 p.2) =
      .ok "Emergency" ∧
    "Emergency" ≠ "Cardiology" := ⟨rfl, by decide⟩

/-- C6 (amended): on the scenario input with no classifier, the cascade
returns "Emergency" directly (rule 1, via chest_pain and systolic 190),
the override stage keeps "Emergency" and floors the department
confidence at 0.8, and the final result is Emergency with blended
confidence (0.5 + 0.8)/2. -/
theorem c6_scenario_amended :
    ∃ row ctx res m1 m2,
      preprocessTriageData c6Submission = .ok (row, ctx) ∧
      fallbackDepartment row ctx = "Emergency" ∧
      departmentOverrides row ctx (priorityScoreOf (computeRisk Option.none).1 row ctx)
        (fallbackDepartment row ctx) (11/20) = ("Emergency", 4/5) ∧
      predictTriage Option.none Option.none c6Submission = .ok (res, m1, m2) ∧
      res.recommended_department = "Emergency" ∧
      res.confidence = 13/20 := by
  have hok1 : (preprocessTriageData c6Submission).isOk = true := by rfl
  have hfacts : (preprocessTriageData c6Submission).map
      (fun p => decide (p.1.chest_pain = 1) && decide (p.1.systolic_bp = 190) &&
        decide (p.1.loss_of_consciousness = 0) && decide (p.1.difficulty_breathing = 0) &&
        decide (p.1.oxygen_saturation = 95)) = .ok true := by rfl
  cases h1 : preprocessTriageData c6Submission with
  | error e => rw [h1] at hok1; simp [Except.isOk, Except.toBool] at hok1
  | ok pc =>
    obtain ⟨row, ctx⟩ := pc
    rw [h1] at hfacts
    simp only [Except.map, Except.ok.injEq, Bool.and_eq_true, decide_eq_true_eq] at hfacts
    obtain ⟨⟨⟨⟨hcp, hsbp⟩, hloc⟩, hdb⟩, _⟩ := hfacts
    have hsbp180 : row.systolic_bp > 180 := by rw [hsbp]; norm_num
    have hfb : fallbackDepartment row ctx = "Emergency" := by
      unfold fallbackDepartment
      rw [if_pos (Or.inr (Or.inr ⟨hcp, hsbp180⟩))]
    have hdo : ∀ P c : ℚ, departmentOverrides row ctx P "Emergency" c =
        ("Emergency", max c (4/5)) := by
      intro P c
      norm_num [departmentOverrides, hcp, hsbp,
        show "Emergency" ≠ "General Medicine" from by decide,
        show "Emergency" ≠ "Gastroenterology" from by decide]
    have hcd : computeDept Option.none row ctx = (fallbackDepartment row ctx, 11/20, Option.none) :=
      rfl
    have hok2 : (predictTriage Option.none Option.none c6Submission).isOk = true := by rfl
    cases h2 : predictTriage Option.none Option.none c6Submission with
    | error e => rw [h2] at hok2; simp [Except.isOk, Except.toBool] at hok2
    | ok t =>
      obtain ⟨res, m1, m2⟩ := t
      obtain ⟨_, _, hdep, hconf⟩ :=
        predictTriage_fields Option.none Option.none c6Submission row ctx res m1 m2 h1 h2
      have hmax : max (11/20 : ℚ) (4/5) = 4/5 := by norm_num
      refine ⟨row, ctx, res, m1, m2, rfl, hfb, ?_, rfl, ?_, ?_⟩
      · rw [hfb, hdo, hmax]
      · rw [hdep, hcd, hfb, hdo]
      · rw [hconf, hcd, hfb, hdo, hmax]
        have harg : ((computeRisk (Option.none : Option RiskModel)).2.1 + 4/5) / 2 =
            (13/20 : ℚ) := by
          have : (computeRisk (Option.none : Option RiskModel)).2.1 = 1/2 := rfl
          rw [this]; norm_num
        rw [harg]
        have hcl : clamp (13/20 : ℚ) 0 1 = 13/20 := by
          rw [clamp]
          norm_num
        rw [hcl, round3]
        have h650 : ((13:ℚ)/20 * 1000) = ((650 : ℤ) : ℚ) := by norm_num
        rw [h650, round_intCast]
        norm_num

/-- C7 (amended): the risk adapter falls back to probability 0.5 and
confidence 0.5 when the model is absent or raises, and a raised call
disables the model on that predictor instance (so a repeat call on the
same instance skips inference); when inference succeeds, the high-risk
index is found by probing the class labels for "High", then 1, then
True, defaulting to the last index, and the confidence is the maximum
class probability. -/
theorem c7_risk_fallback_amended :
    computeRisk Option.none = (1/2, 1/2, Option.none) ∧
    (∀ m : RiskModel, m.probs = Option.none →
      computeRisk (some m) = (1/2, 1/2, Option.none)) ∧
    (∀ m : RiskModel, m.probs = Option.none →
      computeRisk (computeRisk (some m)).2.2 = (1/2, 1/2, Option.none)) ∧
    (∀ (m : RiskModel) (probs : List ℚ) (p : ℚ), m.probs = some probs →
      pyListGet probs (highRiskIdx m.classes) = some p →
      computeRisk (some m) = (p, listMax probs, some m)) ∧
    (∀ (cs : List PyClass) (i : ℕ), pyIndexOf cs (.pstr "High") = some i →
      highRiskIdx cs = (i : ℤ)) ∧
    (∀ (cs : List PyClass) (i : ℕ), pyIndexOf cs (.pstr "High") = Option.none →
      pyIndexOf cs (.pint 1) = some i → highRiskIdx cs = (i : ℤ)) ∧
    (∀ (cs : List PyClass) (i : ℕ), pyIndexOf cs (.pstr "High") = Option.none →
      pyIndexOf cs (.pint 1) = Option.none → pyIndexOf cs (.pbool true) = some i →
      highRiskIdx cs = (i : ℤ)) ∧
    (∀ cs : List PyClass, pyIndexOf cs (.pstr "High") = Option.none →
      pyIndexOf cs (.pint 1) = Option.none → pyIndexOf cs (.pbool true) = Option.none →
      highRiskIdx cs = (cs.length : ℤ) - 1) := by
  have part2 : ∀ m : RiskModel, m.probs = Option.none →
      computeRisk (some m) = (1/2, 1/2, Option.none) := by
    intro m h
    simp only [computeRisk, h]
  refine ⟨rfl, part2, ?_, ?_, ?_, ?_, ?_, ?_⟩
  · intro m h
    rw [part2 m h]
    rfl
  · intro m probs p h hp
    simp only [computeRisk, h, hp]
  · intro cs i h
    simp only [highRiskIdx, h]
  · intro cs i h h1
    simp only [highRiskIdx, h, h1]
  · intro cs i h h1 h2
    simp only [highRiskIdx, h, h1, h2]
  · intro cs h h1 h2
    simp only [highRiskIdx, h, h1, h2]

/-- Witness for C7 (amended): the throwing model falls back to the
neutral probabilities; the healthy Low/High model yields the probability
at the probed "High" index. -/
theorem c7_risk_fallback_amended_witness :
    computeRisk (some throwingRiskModel) = (1/2, 1/2, Option.none) ∧
    computeRisk (some workingRiskModel) = (7/10, listMax [3/10, 7/10], some workingRiskModel) :=
  ⟨c7_risk_fallback_amended.2.1 throwingRiskModel rfl,
   c7_risk_fallback_amended.2.2.2.1 workingRiskModel [3/10, 7/10] (7/10) rfl rfl⟩

/-- Counterexample for C7's process-lifetime part: an inference failure
clears only the predictor instance; the loader cache is untouched, and
the next request's fresh predictor (as every caller in the repository
constructs one per call) holds the cached model again and re-attempts
inference. -/
theorem c7_counterexample :
    computeRisk (newPredictor throwingProcess).1 = (1/2, 1/2, Option.none) ∧
    (serveTriageRequest throwingProcess emptySubmission).2 = throwingProcess ∧
    attemptsRiskInference
      (newPredictor (serveTriageRequest throwingProcess emptySubmission).2).1 = true :=
  ⟨rfl, rfl, rfl⟩

/-- A well-formed int field coerces successfully through `int(... or 0)`. -/
theorem intFieldWellFormed_ok {v : PyVal} (h : intFieldWellFormed v) :
    ∃ n, pyIntCoerce (pyOr v (.int 0)) = .ok n := by
  cases v with
  | none => exact ⟨0, rfl⟩
  | int n =>
    by_cases hn : n = 0
    · subst hn; exact ⟨0, rfl⟩
    · exact ⟨n, by simp [pyOr, pyTruthy, hn, pyIntCoerce]⟩
  | float q =>
    by_cases hq : q = 0
    · subst hq; exact ⟨0, rfl⟩
    · exact ⟨ratTruncate q, by simp [pyOr, pyTruthy, hq, pyIntCoerce]⟩
  | str s =>
    rcases h with h | h
    · subst h; exact ⟨0, rfl⟩
    · by_cases hs : s = ""
      · subst hs; exact ⟨0, rfl⟩
      · cases hp : parseIntStr s with
        | ok n => exact ⟨n, by simp [pyOr, pyTruthy, hs, pyIntCoerce, hp]⟩
        | error e => rw [hp] at h; simp [Except.isOk, Except.toBool] at h

/-- A well-formed float field coerces successfully through
`float(... or 0)`. -/
theorem floatFieldWellFormed_ok {v : PyVal} (h : floatFieldWellFormed v) :
    ∃ q, pyFloatCoerce (pyOr v (.int 0)) = .ok q := by
  cases v with
  | none => exact ⟨0, rfl⟩
  | int n =>
    by_cases hn : n = 0
    · subst hn; exact ⟨0, rfl⟩
    · exact ⟨(n : ℚ), by simp [pyOr, pyTruthy, hn, pyFloatCoerce]⟩
  | float q =>
    by_cases hq : q = 0
    · subst hq; exact ⟨0, rfl⟩
    · exact ⟨q, by simp [pyOr, pyTruthy, hq, pyFloatCoerce]⟩
  | str s =>
    rcases h with h | h
    · subst h; exact ⟨0, rfl⟩
    · by_cases hs : s = ""
      · subst hs; exact ⟨0, rfl⟩
      · cases hp : parseFloatStr s with
        | ok q => exact ⟨q, by simp [pyOr, pyTruthy, hs, pyFloatCoerce, hp]⟩
        | error e => rw [hp] at h; simp [Except.isOk, Except.toBool] at h

/-- Coercion `int(... or 0)` on an explicit int value. -/
theorem pyIntCoerce_or_int (n : ℤ) : pyIntCoerce (pyOr (.int n) (.int 0)) = .ok n := by
  by_cases hn : n = 0
  · subst hn; rfl
  · simp [pyOr, pyTruthy, hn, pyIntCoerce]

/-- Coercion `float(... or 0)` on an explicit float value. -/
theorem pyFloatCoerce_or_float (q : ℚ) : pyFloatCoerce (pyOr (.float q) (.int 0)) = .ok q := by
  by_cases hq : q = 0
  · subst hq; rfl
  · simp [pyOr, pyTruthy, hq, pyFloatCoerce]

/-- Counterexample for C1: a non-numeric string in the heart-rate field
makes the feature builder — and hence `predict_triage` — raise
(`int("abc")` throws ValueError), so the engine does not return a
TriageResult for every malformed submission. -/
theorem c1_counterexample :
    (buildTriageFeaturePayload badVitalSubmission).isOk = false ∧
    (predictTriage Option.none Option.none badVitalSubmission).isOk = false :=
  ⟨rfl, rfl⟩

/-- C1 (amended): the engine never raises when every numeric field is
absent, numeric, or a parsable numeric string — missing fields get
per-field defaults and a complete TriageResult is returned; and after
the triage route's coercion layer (which maps any malformed value to its
default), `predict_triage` succeeds unconditionally. -/
theorem c1_engine_totality_amended :
    (∀ (risk? : Option RiskModel) (dept? : Option DeptModel) (d : Submission),
      intFieldWellFormed d.age → intFieldWellFormed d.heart_rate →
      floatFieldWellFormed d.temperature → intFieldWellFormed d.oxygen_saturation →
      intFieldWellFormed d.respiratory_rate →
      (predictTriage risk? dept? d).isOk = true) ∧
    (∀ (risk? : Option RiskModel) (dept? : Option DeptModel) (d : Submission),
      (predictTriage risk? dept? (routeNormalizeVitals d)).isOk = true) := by
  constructor
  · intro risk? dept? d h1 h2 h3 h4 h5
    obtain ⟨age, hage⟩ := intFieldWellFormed_ok h1
    obtain ⟨hr, hhr⟩ := intFieldWellFormed_ok h2
    obtain ⟨temp, htemp⟩ := floatFieldWellFormed_ok h3
    obtain ⟨spo2, hspo2⟩ := intFieldWellFormed_ok h4
    obtain ⟨rr, hrr⟩ := intFieldWellFormed_ok h5
    simp [predictTriage, preprocessTriageData, buildTriageFeaturePayload, Bind.bind,
      Except.instMonad, Except.bind, hage, hhr, htemp, hspo2, hrr,
      Except.pure, pure, Except.isOk, Except.toBool]
  · intro risk? dept? d
    simp [predictTriage, preprocessTriageData, buildTriageFeaturePayload, Bind.bind,
      Except.instMonad, routeNormalizeVitals, Except.bind, pyIntCoerce_or_int,
      pyFloatCoerce_or_float, Except.pure, pure, Except.isOk, Except.toBool]

/-- Witness for C1 (amended) at a submission whose vitals are all
numeric strings. -/
theorem c1_engine_totality_amended_witness :
    (predictTriage Option.none Option.none stringVitalSubmission).isOk = true :=
  c1_engine_totality_amended.1 Option.none Option.none stringVitalSubmission
    (Or.inr rfl) (Or.inr rfl) (Or.inr rfl) (Or.inr rfl) (Or.inr rfl)

/-- Counterexample for C2: on a submission with every vital absent, the
feature builder fills respiratory_rate 0, oxygen_saturation 0 and
temperature 0.0 — not the claimed 16, 98 and 37.0. -/
theorem c2_counterexample :
    (buildTriageFeaturePayload emptySubmission).map
      (fun p => decide (p.1.respiratory_rate = 0) && decide (p.1.oxygen_saturation = 0) &&
        decide (p.1.temperature = 0)) = .ok true ∧
    (0 : ℚ) ≠ 16 ∧ (0 : ℚ) ≠ 98 ∧ (0 : ℚ) ≠ 37 :=
  ⟨rfl, by norm_num⟩

/-- C2 (amended): for absent vitals the feature builder itself defaults
heart_rate, respiratory_rate, oxygen_saturation and temperature all to 0
and systolic blood pressure to 120 (also on any unparsable "S/D"
string); the documented clinically neutral defaults 16 / 98 / 37.0 are
applied upstream by the triage route's coercion layer, after which the
builder sees numeric values. -/
theorem c2_defaults_amended (d : Submission)
    (hhr : d.heart_rate = .none) (hrr : d.respiratory_rate = .none)
    (hspo2 : d.oxygen_saturation = .none) (htemp : d.temperature = .none)
    (hbp : d.blood_pressure = .none) (hsbp : d.systolic_bp = .none) :
    (∀ row ctx, buildTriageFeaturePayload d = .ok (row, ctx) →
      row.heart_rate = 0 ∧ row.respiratory_rate = 0 ∧ row.oxygen_saturation = 0 ∧
      row.temperature = 0 ∧ row.systolic_bp = 120) ∧
    (∀ row ctx, buildTriageFeaturePayload (routeNormalizeVitals d) = .ok (row, ctx) →
      row.heart_rate = 0 ∧ row.respiratory_rate = 16 ∧ row.oxygen_saturation = 98 ∧
      row.temperature = 37) ∧
    (∀ s : String,
      ((s.toList.dropWhile Char.isWhitespace).takeWhile Char.isDigit).length < 2 →
      parseSystolicBp (.str s) = 120) := by
  refine ⟨?_, ?_, ?_⟩
  · intro row ctx h
    simp only [buildTriageFeaturePayload, hhr, hrr, hspo2, htemp, hbp, hsbp,
      show pyIntCoerce (pyOr PyVal.none (PyVal.int 0)) = Except.ok 0 from rfl,
      show pyFloatCoerce (pyOr PyVal.none (PyVal.int 0)) = Except.ok 0 from rfl,
      show parseSystolicBp (pyOr PyVal.none PyVal.none) = 120 from rfl] at h
    cases hage : pyIntCoerce (pyOr d.age (PyVal.int 0)) with
    | error e => rw [hage] at h; simp [Bind.bind, Except.instMonad, Except.bind] at h
    | ok a =>
      rw [hage] at h
      simp only [Bind.bind, Except.instMonad, Except.bind, Except.pure, pure,
        Except.ok.injEq, Prod.mk.injEq] at h
      obtain ⟨hrow, -⟩ := h
      rw [← hrow]
      norm_num
  · intro row ctx h
    simp only [buildTriageFeaturePayload, routeNormalizeVitals, hhr, hrr, hspo2, htemp,
      show coerceIntRoute PyVal.none 0 = 0 from rfl,
      show coerceIntRoute PyVal.none 16 = 16 from rfl,
      show coerceIntRoute PyVal.none 98 = 98 from rfl,
      show coerceFloatRoute PyVal.none 37 = 37 from rfl,
      pyIntCoerce_or_int, pyFloatCoerce_or_float,
      Bind.bind, Except.instMonad, Except.bind, Except.pure, pure,
      Except.ok.injEq, Prod.mk.injEq] at h
    obtain ⟨hrow, -⟩ := h
    rw [← hrow]
    norm_num
  · intro s h
    simp only [parseSystolicBp, show pyStrOfOrEmpty (PyVal.str s) = s from rfl]
    rw [if_neg (by omega)]

/-- Witness for C2 (amended) at the empty submission, before and after
the route coercion layer. -/
theorem c2_defaults_amended_witness :
    (∃ row ctx, buildTriageFeaturePayload emptySubmission = .ok (row, ctx) ∧
      row.respiratory_rate = 0 ∧ row.oxygen_saturation = 0 ∧ row.temperature = 0 ∧
      row.systolic_bp = 120) ∧
    (∃ row ctx, buildTriageFeaturePayload (routeNormalizeVitals emptySubmission) = .ok (row, ctx) ∧
      row.respiratory_rate = 16 ∧ row.oxygen_saturation = 98 ∧ row.temperature = 37) := by
  constructor
  · have hok : (buildTriageFeaturePayload emptySubmission).isOk = true := by rfl
    cases h : buildTriageFeaturePayload emptySubmission with
    | error e => rw [h] at hok; simp [Except.isOk, Except.toBool] at hok
    | ok pc =>
      obtain ⟨row, ctx⟩ := pc
      obtain ⟨_, h2, h3, h4, h5⟩ :=
        (c2_defaults_amended emptySubmission rfl rfl rfl rfl rfl rfl).1 row ctx h
      exact ⟨row, ctx, rfl, h2, h3, h4, h5⟩
  · have hok : (buildTriageFeaturePayload (routeNormalizeVitals emptySubmission)).isOk = true := by
      rfl
    cases h : buildTriageFeaturePayload (routeNormalizeVitals emptySubmission) with
    | error e => rw [h] at hok; simp [Except.isOk, Except.toBool] at hok
    | ok pc =>
      obtain ⟨row, ctx⟩ := pc
      obtain ⟨_, h2, h3, h4⟩ :=
        (c2_defaults_amended emptySubmission rfl rfl rfl rfl rfl rfl).2.1 row ctx h
      exact ⟨row, ctx, rfl, h2, h3, h4⟩

/-- The matched-key list of `_map_tokens_to_flags` as a filter of the
dictionary keys. -/
theorem matchedKeys_eq_filter (ts : List String) (kmap : KeywordMap) :
    matchedKeys ts kmap =
      (kmap.filter (fun p => (activeTokens ts).any (entryMatches p))).map Prod.fst := by
  unfold matchedKeys mapTokensToFlags
  induction kmap with
  | nil => rfl
  | cons p rest ih =>
    by_cases hc : (activeTokens ts).any (entryMatches p) = true
    · simp only [List.map_cons, List.filter_cons, hc, if_true]
      simp only [show ((1:ℕ) == 1) = true from rfl, if_true, List.map_cons]
      rw [ih]
    · have hc' : (activeTokens ts).any (entryMatches p) = false := by
        rwa [Bool.not_eq_true] at hc
      simp only [List.map_cons, List.filter_cons, hc', Bool.false_eq_true, if_false]
      simp only [show ((0:ℕ) == 1) = false from rfl, Bool.false_eq_true, if_false]
      rw [ih]

/-- Round-trip stability of keyword extraction for any dictionary whose
rendered canonical names match exactly their own entry, are not in the
none-token set, and are pairwise distinct. -/
theorem matched_roundtrip (kmap : KeywordMap)
    (hpair : kmap.all (fun p => kmap.all fun q =>
      entryMatches p (renderName q.1) == (p.1 == q.1)) = true)
    (hnone : kmap.all (fun p => !(noneTokens.contains (renderName p.1))) = true)
    (hnodup : (kmap.map Prod.fst).Nodup) :
    ∀ ts, matchedKeys ((matchedKeys ts kmap).map renderName) kmap = matchedKeys ts kmap := by
  intro ts
  rw [matchedKeys_eq_filter, matchedKeys_eq_filter]
  set P : (String × List String) → Bool := fun p => (activeTokens ts).any (entryMatches p)
    with hP
  set S := (kmap.filter P).map Prod.fst with hS
  have hSsub : ∀ s ∈ S, ∃ p, p ∈ kmap ∧ p.1 = s := by
    intro s hs
    rw [hS] at hs
    obtain ⟨p, hp, hps⟩ := List.mem_map.mp hs
    exact ⟨p, (List.mem_filter.mp hp).1, hps⟩
  have hA : activeTokens (S.map renderName) = S.map renderName := by
    unfold activeTokens
    apply List.filter_eq_self.mpr
    intro a ha
    obtain ⟨s, hs, hsa⟩ := List.mem_map.mp ha
    obtain ⟨p, hpk, hp1⟩ := hSsub s hs
    have h := (List.all_eq_true.mp hnone) p hpk
    rw [← hsa, ← hp1]
    simpa using h
  rw [hA]
  have hpair2 : ∀ p ∈ kmap, ∀ q ∈ kmap,
      entryMatches p (renderName q.1) = (p.1 == q.1) := by
    intro p hp q hq
    have h1 := (List.all_eq_true.mp ((List.all_eq_true.mp hpair) p hp)) q hq
    exact eq_of_beq h1
  have hBsup : ∀ p ∈ kmap, ((S.map renderName).any (entryMatches p)) = P p := by
    intro p hp
    rw [List.any_map]
    by_cases hPp : P p = true
    · have hmemS : p.1 ∈ S := by
        rw [hS]
        exact List.mem_map_of_mem _ (List.mem_filter.mpr ⟨hp, hPp⟩)
      rw [hPp]
      apply List.any_eq_true.mpr
      refine ⟨p.1, hmemS, ?_⟩
      show entryMatches p (renderName p.1) = true
      rw [hpair2 p hp p hp]
      exact beq_self_eq_true _
    · have hPp' : P p = false := by rwa [Bool.not_eq_true] at hPp
      rw [hPp']
      apply Bool.eq_false_iff.mpr
      intro hany
      obtain ⟨s, hsS, hsm⟩ := List.any_eq_true.mp hany
      obtain ⟨q, hqf, hq1⟩ := List.mem_map.mp (hS ▸ hsS)
      have hqk := (List.mem_filter.mp hqf).1
      have hqP := (List.mem_filter.mp hqf).2
      have hsm2 : entryMatches p (renderName q.1) = true := by rw [hq1]; exact hsm
      rw [hpair2 p hp q hqk] at hsm2
      have hpq : p.1 = q.1 := beq_iff_eq.mp hsm2
      have hpqe : p = q := List.inj_on_of_nodup_map hnodup hp hqk hpq
      rw [hpqe, hqP] at hPp'
      exact Bool.noConfusion hPp'
  rw [List.filter_congr hBsup]

/-- C8: keyword extraction is idempotent for both dictionaries — mapping
the matched canonical terms, with underscores rendered as spaces, back
through the same dictionary returns exactly the same matched set. -/
theorem c8_extraction_idempotent :
    ∀ ts : List String,
      matchedKeys ((matchedKeys ts SYMPTOM_KEYWORDS).map renderName) SYMPTOM_KEYWORDS =
        matchedKeys ts SYMPTOM_KEYWORDS ∧
      matchedKeys ((matchedKeys ts CONDITION_KEYWORDS).map renderName) CONDITION_KEYWORDS =
        matchedKeys ts CONDITION_KEYWORDS :=
  fun ts =>
    ⟨matched_roundtrip SYMPTOM_KEYWORDS (by rfl) (by rfl) (by decide) ts,
     matched_roundtrip CONDITION_KEYWORDS (by rfl) (by rfl) (by decide) ts⟩

/-- The unmatched-token indicator of `_map_tokens_to_flags` is set
exactly when some token survives the none/n-a filter and matches no
dictionary entry. -/
theorem unknown_flag_iff (ts : List String) (kmap : KeywordMap) :
    (mapTokensToFlags ts kmap).2 = 1 ↔
    ∃ tok ∈ ts, noneTokens.contains tok = false ∧ tokenUnmatched kmap tok := by
  show (if (activeTokens ts).any (fun tok => kmap.all fun p => !(entryMatches p tok)) then
      (1:ℕ) else 0) = 1 ↔ _
  constructor
  · intro h
    by_cases hc : (activeTokens ts).any (fun tok => kmap.all fun p => !(entryMatches p tok)) = true
    · obtain ⟨tok, htok, hall⟩ := List.any_eq_true.mp hc
      have hmem := List.mem_filter.mp htok
      refine ⟨tok, hmem.1, ?_, ?_⟩
      · have := hmem.2
        simpa using this
      · intro p hp
        have := (List.all_eq_true.mp hall) p hp
        simpa using this
    · rw [if_neg hc] at h
      exact absurd h (by norm_num)
  · rintro ⟨tok, htok, hnone, hunm⟩
    have hc : (activeTokens ts).any (fun tok => kmap.all fun p => !(entryMatches p tok)) = true := by
      apply List.any_eq_true.mpr
      refine ⟨tok, List.mem_filter.mpr ⟨htok, by simpa using hnone⟩, ?_⟩
      apply List.all_eq_true.mpr
      intro p hp
      simp [hunm p hp]
    rw [if_pos hc]

/-- A canonical term's flag is set exactly when some surviving token
matches that term's entry. -/
theorem flag_set_iff (ts : List String) (kmap : KeywordMap) (target : String) :
    (target, 1) ∈ (mapTokensToFlags ts kmap).1 ↔
    ∃ p ∈ kmap, p.1 = target ∧
      ∃ tok ∈ ts, noneTokens.contains tok = false ∧ entryMatches p tok = true := by
  show (target, 1) ∈ kmap.map
      (fun p => (p.1, if (activeTokens ts).any (entryMatches p) then (1:ℕ) else 0)) ↔ _
  rw [List.mem_map]
  constructor
  · rintro ⟨p, hp, hpe⟩
    have h1 : p.1 = target := (Prod.mk.injEq _ _ _ _ ▸ hpe).1
    have h2 : (if (activeTokens ts).any (entryMatches p) then (1:ℕ) else 0) = 1 :=
      (Prod.mk.injEq _ _ _ _ ▸ hpe).2
    by_cases hc : (activeTokens ts).any (entryMatches p) = true
    · obtain ⟨tok, htok, hm⟩ := List.any_eq_true.mp hc
      have hmem := List.mem_filter.mp htok
      exact ⟨p, hp, h1, tok, hmem.1, by simpa using hmem.2, hm⟩
    · rw [if_neg hc] at h2
      exact absurd h2 (by norm_num)
  · rintro ⟨p, hp, hpt, tok, htok, hnone, hm⟩
    refine ⟨p, hp, ?_⟩
    have hc : (activeTokens ts).any (entryMatches p) = true :=
      List.any_eq_true.mpr ⟨tok, List.mem_filter.mpr ⟨htok, by simpa using hnone⟩, hm⟩
    rw [hpt, hc]
    simp

/-- C9: a token matching no canonical term sets the unmatched indicator
and no symptom/condition flag, while none/n-a tokens are discarded
without setting the indicator — stated as exact characterizations of
the indicator and the flags for both dictionaries, with the concrete
facts for "zorblax pain" and for the none-token list. -/
theorem c9_unknown_and_none_tokens :
    (∀ ts : List String,
      ((mapTokensToFlags ts SYMPTOM_KEYWORDS).2 = 1 ↔
        ∃ tok ∈ ts, noneTokens.contains tok = false ∧ tokenUnmatched SYMPTOM_KEYWORDS tok) ∧
      ((mapTokensToFlags ts CONDITION_KEYWORDS).2 = 1 ↔
        ∃ tok ∈ ts, noneTokens.contains tok = false ∧ tokenUnmatched CONDITION_KEYWORDS tok) ∧
      (∀ target : String,
        ((target, 1) ∈ (mapTokensToFlags ts SYMPTOM_KEYWORDS).1 ↔
          ∃ p ∈ SYMPTOM_KEYWORDS, p.1 = target ∧
            ∃ tok ∈ ts, noneTokens.contains tok = false ∧ entryMatches p tok = true)) ∧
      (∀ target : String,
        ((target, 1) ∈ (mapTokensToFlags ts CONDITION_KEYWORDS).1 ↔
          ∃ p ∈ CONDITION_KEYWORDS, p.1 = target ∧
            ∃ tok ∈ ts, noneTokens.contains tok = false ∧ entryMatches p tok = true))) ∧
    tokenUnmatched SYMPTOM_KEYWORDS "zorblax pain" ∧
    mapTokensToFlags ["zorblax pain"] SYMPTOM_KEYWORDS =
      (SYMPTOM_KEYWORDS.map (fun p => (p.1, 0)), 1) ∧
    mapTokensToFlags noneTokens SYMPTOM_KEYWORDS =
      (SYMPTOM_KEYWORDS.map (fun p => (p.1, 0)), 0) ∧
    mapTokensToFlags noneTokens CONDITION_KEYWORDS =
      (CONDITION_KEYWORDS.map (fun p => (p.1, 0)), 0) :=
  ⟨fun ts =>
    ⟨unknown_flag_iff ts SYMPTOM_KEYWORDS, unknown_flag_iff ts CONDITION_KEYWORDS,
     fun target => flag_set_iff ts SYMPTOM_KEYWORDS target,
     fun target => flag_set_iff ts CONDITION_KEYWORDS target⟩,
   by show ∀ p ∈ SYMPTOM_KEYWORDS, entryMatches p "zorblax pain" = false
      decide,
   by rfl, by rfl, by rfl⟩

/-- Witness for C9: the unknown token "zorblax pain" sets the symptom
unmatched indicator. -/
theorem c9_unknown_and_none_tokens_witness :
    (mapTokensToFlags ["zorblax pain"] SYMPTOM_KEYWORDS).2 = 1 :=
  ((c9_unknown_and_none_tokens.1 ["zorblax pain"]).1).mpr
    ⟨"zorblax pain", by simp, by rfl, c9_unknown_and_none_tokens.2.1⟩

/-- Witness for C8 at a concrete token list. -/
theorem c8_extraction_idempotent_witness :
    matchedKeys ((matchedKeys ["chest pain", "unconscious"] SYMPTOM_KEYWORDS).map renderName)
      SYMPTOM_KEYWORDS = matchedKeys ["chest pain", "unconscious"] SYMPTOM_KEYWORDS :=
  (c8_extraction_idempotent ["chest pain", "unconscious"]).1

end Pragyan
